import Mathlib

/-!
Verification development for the acloud AVD-instance tooling
(list/instance.py, create/local_image_local_instance.py, delete/).

The Python sources are shallowly embedded:
* process command lines are `List Char`;
* the two `re` patterns (`_RE_SSH_TUNNEL_PATTERN`, `_RE_LAUNCH_CVD`) are
  transcribed into a small regex AST and executed by a backtracking matcher
  `matchR` that mirrors CPython's leftmost/greedy backtracking order and its
  capture-group semantics (last assignment wins, failed branches are
  discarded, a repeated group stops on an empty-width iteration);
* the instance construction and lifecycle-control code is translated
  statement by statement, with the OS-facing calls (process-table scan,
  prompt, subprocess execution) turned into explicit parameters and event
  traces.
-/

namespace Acloud

/-- Python strings are modelled as lists of characters. -/
abbrev Str := List Char

/-- Coerce a Lean string literal to the model type. -/
def str (s : String) : Str := s.data

/-- Python `\s` (ASCII): space, tab, newline, carriage return, form feed,
vertical tab. -/
def isPySpace (c : Char) : Bool :=
  c = ' ' || c = '\t' || c = '\n' || c = '\r' || c = '\x0b' || c = '\x0c'

/-- `str.strip()`: remove leading and trailing whitespace. -/
def pyStrip (s : Str) : Str :=
  ((s.dropWhile isPySpace).reverse.dropWhile isPySpace).reverse

/-- `"%s" % x` where `x` is a string or `None`. -/
def pyStrOpt : Option Str → Str
  | none => str "None"
  | some s => s

/-- Python truthiness of an optional string (`None` and `""` are falsy). -/
def pyTruthyStrOpt : Option Str → Bool
  | none => false
  | some s => !s.isEmpty

/-- Python truthiness of an optional int (`None` and `0` are falsy). -/
def pyTruthyNatOpt : Option Nat → Bool
  | none => false
  | some n => n != 0

/-- `int()` on a captured digit string (`\d+` guarantees only digits). -/
def strToNat (s : Str) : Nat :=
  s.foldl (fun a c => a * 10 + (c.toNat - '0'.toNat)) 0

/-- `"%d" % n` / `"%s" % n` for a nonnegative int. -/
def numStr (n : Nat) : Str := (Nat.repr n).data

/-! ## Regex AST

Only the constructs appearing in the two patterns of `list/instance.py` are
represented.  Character classes: `.` (any char but newline), `\d`, `\s`,
`[^/]`, and literal characters. -/

/-- One-character regex classes. -/
inductive CClass
  | any
  | digit
  | space
  | notSlash
  | lit (c : Char)
deriving DecidableEq

/-- Does the class accept the character? -/
def CClass.test : CClass → Char → Bool
  | .any, c => c != '\n'
  | .digit, c => '0' ≤ c && c ≤ '9'
  | .space, c => isPySpace c
  | .notSlash, c => c != '/'
  | .lit a, c => c = a

/-- Regex abstract syntax: empty, single class, concatenation, a named
capture group (identified by an index), greedy `c*` and `c+` on a class,
greedy optional `(r)?`, and greedy repetition `(r)+` on a subpattern. -/
inductive Regex
  | eps
  | cls (c : CClass)
  | seq (r₁ r₂ : Regex)
  | capture (idx : Nat) (r : Regex)
  | star (c : CClass)
  | plus (c : CClass)
  | opt (r : Regex)
  | rep1 (r : Regex)
deriving DecidableEq

/-- Concatenate a list of regexes. -/
def Regex.cat (rs : List Regex) : Regex := rs.foldr Regex.seq Regex.eps

/-- A string of literal characters. -/
def lits (s : String) : Regex :=
  Regex.cat (s.data.map (fun c => Regex.cls (CClass.lit c)))

/-- A pattern-string fragment in which `.` is the wildcard and every other
character is literal (how `re.compile` reads `127.0.0.1` and an interpolated
dotted ip). -/
def pats (s : Str) : Regex :=
  Regex.cat (s.map (fun c => if c = '.' then Regex.cls .any else Regex.cls (.lit c)))

/-- Captures: most recent assignment first, as Python keeps the last
assignment of a repeated or re-entered group. -/
abbrev Caps := List (Nat × Str)

/-- Look up a capture group; `none` if it never participated. -/
def Caps.get (caps : Caps) (i : Nat) : Option Str :=
  match caps with
  | [] => none
  | (j, v) :: rest => if j = i then some v else Caps.get rest i

/-- Node count, used to compute an ample recursion budget for `matchR`. -/
def Regex.size : Regex → Nat
  | .eps => 1
  | .cls _ => 1
  | .star _ => 1
  | .plus _ => 1
  | .seq r₁ r₂ => r₁.size + r₂.size + 1
  | .capture _ r => r.size + 1
  | .opt r => r.size + 1
  | .rep1 r => r.size + 1

/-- Accumulator loop for `greedyStack`: prepend each further-consumed
suffix, so the deepest one ends up first. -/
def greedyStackGo (c : CClass) : Str → List Str → List Str
  | [], acc => acc
  | a :: s, acc => if c.test a then greedyStackGo c s (s :: acc) else acc

/-- The suffixes reachable by consuming a (maximal-first) run of characters
of class `c`: greedy order, the longest consumed prefix first, down to
consuming nothing.  This is the backtracking order of Python's `c*`. -/
def greedyStack (c : CClass) (s : Str) : List Str :=
  greedyStackGo c s [s]

/-- Try a continuation on each suffix in order, first success wins. -/
def tryEach (k : Str → Caps → Option Caps) (caps : Caps) : List Str → Option Caps
  | [] => none
  | s :: rest =>
    match k s caps with
    | some out => some out
    | none => tryEach k caps rest

/-- Backtracking matcher in continuation-passing style, mirroring CPython's
depth-first, greedy, leftmost search and its capture semantics.  `fuel`
bounds the recursion depth (each constructor and each `(r)+` iteration costs
one unit); callers supply an ample budget.  A `(r)+` iteration that consumes
nothing ends the repetition, as in CPython. -/
def matchR : Nat → Regex → Str → Caps → (Str → Caps → Option Caps) → Option Caps
  | 0, _, _, _, _ => none
  | fuel + 1, r, s, caps, k =>
    match r with
    | .eps => k s caps
    | .cls c =>
      match s with
      | [] => none
      | a :: s' => if c.test a then k s' caps else none
    | .seq r₁ r₂ =>
      matchR fuel r₁ s caps (fun s' caps' => matchR fuel r₂ s' caps' k)
    | .capture idx r₁ =>
      matchR fuel r₁ s caps
        (fun s' caps' => k s' ((idx, s.take (s.length - s'.length)) :: caps'))
    | .star c => tryEach k caps (greedyStack c s)
    | .plus c =>
      match s with
      | [] => none
      | a :: s' => if c.test a then tryEach k caps (greedyStack c s') else none
    | .opt r₁ =>
      match matchR fuel r₁ s caps k with
      | some out => some out
      | none => k s caps
    | .rep1 r₁ =>
      matchR fuel r₁ s caps (fun s' caps' =>
        if s'.length < s.length then
          match matchR fuel (.rep1 r₁) s' caps' k with
          | some out => some out
          | none => k s' caps'
        else k s' caps')

/-- `re.match(pattern, s)`: anchored at the start, the rest of the string is
unconstrained; returns the captures of the first (leftmost/greedy) match. -/
def matchTop (r : Regex) (s : Str) : Option Caps :=
  matchR (s.length + r.size + 16) r s [] (fun _ caps => some caps)

/-! ## Constants

The `acloud.internal.constants` module is not under src/; the values below
are modelled from the spec (§4.2, P3, E2E scenarios, §4.4). -/

/-- Modelled from the spec: `constants.DEFAULT_VNC_PORT` (P3: default VNC=6444). -/
def DEFAULT_VNC_PORT : Nat := 6444

/-- Modelled from the spec: `constants.DEFAULT_ADB_PORT` (P3: default ADB=6520). -/
def DEFAULT_ADB_PORT : Nat := 6520

/-- Modelled from the spec: `constants.LOCAL_INS_NAME`, the fixed local
instance name (E2E deletion scenario: `"local-instance"`). -/
def LOCAL_INS_NAME : Str := str "local-instance"

/-- Modelled from the spec: `constants.INS_STATUS_RUNNING` (§4.3: status = RUNNING). -/
def INS_STATUS_RUNNING : Str := str "RUNNING"

/-- Modelled from the spec: `constants.TYPE_CF`, the fixed device type of a
local instance (§4.3: `avdType` = fixed device type).  The exact string is
not observable in any claim. -/
def TYPE_CF : Str := str "cuttlefish"

/-- Modelled from the spec: `constants.INS_KEY_DISPLAY` (§6: recognized
metadata key for display). -/
def INS_KEY_DISPLAY : Str := str "display"

/-- Modelled from the spec: `constants.INS_KEY_AVD_TYPE`. -/
def INS_KEY_AVD_TYPE : Str := str "avd_type"

/-- Modelled from the spec: `constants.INS_KEY_AVD_FLAVOR`. -/
def INS_KEY_AVD_FLAVOR : Str := str "flavor"

/-! ## The two patterns of `list/instance.py`

```
_RE_SSH_TUNNEL_PATTERN = (r"((.*\s*-L\s)(?P<local_vnc_port>\d+):127.0.0.1:%s)"
                          r"((.*\s*-L\s)(?P<local_adb_port>\d+):127.0.0.1:%s)"
                          r"(.+%s)")
```
instantiated as `pattern % (VNC_GROUP, DEFAULT_VNC_PORT, ADB_GROUP,
DEFAULT_ADB_PORT, ip)`, and

```
_RE_LAUNCH_CVD = re.compile(r"(?P<date_str>^[^/]+)(.*launch_cvd --daemon )+"
                            r"((.*\s*-cpus\s)(?P<cpu>\d+))?"
                            r"((.*\s*-x_res\s)(?P<x_res>\d+))?"
                            r"((.*\s*-y_res\s)(?P<y_res>\d+))?"
                            r"((.*\s*-dpi\s)(?P<dpi>\d+))?"
                            r"((.*\s*-memory_mb\s)(?P<memory>\d+))?"
                            r"((.*\s*-blank_data_image_mb\s)(?P<disk>\d+))?")
```

Unnamed groups have no repetition applied to them except the explicit
`rep1`/`opt` nodes, so they are transcribed as plain concatenation.  In
`127.0.0.1` and in the interpolated ip the unescaped `.` is the regex
wildcard, which `pats` reproduces (the model covers ip strings made of
literal characters and dots, i.e. every dotted-quad address). -/

/-- Capture index of `local_vnc_port`. -/
def VNC_GROUP : Nat := 0

/-- Capture index of `local_adb_port`. -/
def ADB_GROUP : Nat := 1

/-- `.*\s*-L\s`, the prefix of each forwarding clause. -/
def dashLHead : Regex :=
  Regex.cat [.star .any, .star .space, lits "-L", .cls .space]

/-- The fixed (ip-independent) front of the tunnel pattern:
`((.*\s*-L\s)(?P<local_vnc_port>\d+):127.0.0.1:6444)`
`((.*\s*-L\s)(?P<local_adb_port>\d+):127.0.0.1:6520)` . -/
def tunnelFront : Regex :=
  Regex.cat
    [dashLHead, .capture VNC_GROUP (.plus .digit),
     pats (str ":127.0.0.1:" ++ numStr DEFAULT_VNC_PORT),
     dashLHead, .capture ADB_GROUP (.plus .digit),
     pats (str ":127.0.0.1:" ++ numStr DEFAULT_ADB_PORT)]

/-- `_RE_SSH_TUNNEL_PATTERN % (VNC, DEFAULT_VNC_PORT, ADB, DEFAULT_ADB_PORT, ip)`:
the front above followed by `(.+ip)`. -/
def tunnelRegex (ip : Str) : Regex :=
  .seq tunnelFront (.seq (.plus .any) (pats ip))

/-- Capture indices of the seven named groups of `_RE_LAUNCH_CVD`. -/
def DATE_GROUP : Nat := 0

/-- Capture index of `cpu`. -/
def CPU_GROUP : Nat := 1

/-- Capture index of `x_res`. -/
def XRES_GROUP : Nat := 2

/-- Capture index of `y_res`. -/
def YRES_GROUP : Nat := 3

/-- Capture index of `dpi`. -/
def DPI_GROUP : Nat := 4

/-- Capture index of `memory`. -/
def MEM_GROUP : Nat := 5

/-- Capture index of `disk`. -/
def DISK_GROUP : Nat := 6

/-- `((.*\s*-FLAG\s)(?P<g>\d+))?`, one optional flag/value group. -/
def flagGroup (idx : Nat) (flag : String) : Regex :=
  .opt (.seq (Regex.cat [.star .any, .star .space, lits ("-" ++ flag), .cls .space])
             (.capture idx (.plus .digit)))

/-- `_RE_LAUNCH_CVD`.  The leading `^` of `(?P<date_str>^[^/]+)` is the
start anchor, which `matchTop` already imposes. -/
def launchRegex : Regex :=
  Regex.cat
    [.capture DATE_GROUP (.plus .notSlash),
     .rep1 (.seq (.star .any) (lits "launch_cvd --daemon ")),
     flagGroup CPU_GROUP "cpus",
     flagGroup XRES_GROUP "x_res",
     flagGroup YRES_GROUP "y_res",
     flagGroup DPI_GROUP "dpi",
     flagGroup MEM_GROUP "memory_mb",
     flagGroup DISK_GROUP "blank_data_image_mb"]

/-! ## `list/instance.py`: the instance model

The process-table scan (`subprocess.check_output(constants.COMMAND_PS)` /
`ps -eo lstart,cmd`) is passed in explicitly as the list of its output
lines. -/

/-- `ForwardedPorts = collections.namedtuple(..., [VNC_PORT, ADB_PORT])`;
fields are `None` until a tunnel is found. -/
structure ForwardedPorts where
  vnc_port : Option Nat
  adb_port : Option Nat
deriving DecidableEq

/-- `_FULL_NAME_STRING % {"device_serial": d, "instance_name": n}`. -/
def fullNameString (device_serial instance_name : Str) : Str :=
  str "device serial: " ++ device_serial ++ str " (" ++ instance_name ++ str ")"

/-- The fields of `Instance.__init__`, all `None` before population. -/
structure Instance where
  name : Option Str := none
  fullname : Option Str := none
  status : Option Str := none
  display : Option Str := none
  ip : Option Str := none
  adb_port : Option Nat := none
  vnc_port : Option Nat := none
  ssh_tunnel_is_connected : Option Bool := none
  createtime : Option Str := none
  avd_type : Option Str := none
  avd_flavor : Option Str := none
  is_local : Option Bool := none
deriving DecidableEq

/-- The match-and-extract step of `GetAdbVncPortFromSSHTunnel`'s loop body:
on a matching line, `int(match.group(...))` for both named groups. -/
def tunnelLinePorts (ip line : Str) : Option (Option Nat × Option Nat) :=
  (matchTop (tunnelRegex ip) line).map (fun caps =>
    ((Caps.get caps VNC_GROUP).map strToNat, (Caps.get caps ADB_GROUP).map strToNat))

/-- `RemoteInstance.GetAdbVncPortFromSSHTunnel(ip)`: scan the process table
line by line; on the first line matched by the instantiated
`_RE_SSH_TUNNEL_PATTERN` take both ports and break; with no match both
ports stay `None`. -/
def GetAdbVncPortFromSSHTunnel (psLines : List Str) (ip : Str) : ForwardedPorts :=
  match psLines with
  | [] => { vnc_port := none, adb_port := none }
  | line :: rest =>
    match tunnelLinePorts ip line with
    | some (v, a) => { vnc_port := v, adb_port := a }
    | none => GetAdbVncPortFromSSHTunnel rest ip

/-- The body of `LocalInstance.__new__`'s loop on a matching line: populate
a fresh `Instance` from the match groups and the fixed local constants. -/
def localInstanceOfCaps (caps : Caps) : Instance :=
  let x_res := Caps.get caps XRES_GROUP
  let y_res := Caps.get caps YRES_GROUP
  let dpi := Caps.get caps DPI_GROUP
  let date_str := (Caps.get caps DATE_GROUP).map pyStrip
  { name := some LOCAL_INS_NAME,
    fullname := some (fullNameString (str "127.0.0.1:" ++ numStr DEFAULT_ADB_PORT)
                                     LOCAL_INS_NAME),
    createtime := date_str,
    avd_type := some TYPE_CF,
    ip := some (str "127.0.0.1"),
    status := some INS_STATUS_RUNNING,
    adb_port := some DEFAULT_ADB_PORT,
    vnc_port := some DEFAULT_VNC_PORT,
    display := some (pyStrOpt x_res ++ str "x" ++ pyStrOpt y_res
                      ++ str " (" ++ pyStrOpt dpi ++ str ")"),
    is_local := some true,
    ssh_tunnel_is_connected := some true }

/-- The scan loop of `LocalInstance.__new__`: first line matched by
`_RE_LAUNCH_CVD` wins; no match returns `None`. -/
def localInstanceScan : List Str → Option Instance
  | [] => none
  | line :: rest =>
    match matchTop launchRegex line with
    | some caps => some (localInstanceOfCaps caps)
    | none => localInstanceScan rest

/-- `LocalInstance.__new__`: on an unsupported platform return `None`
without scanning, otherwise scan the `ps -eo lstart,cmd` output.
`supported` stands for `utils.IsSupportedPlatform()` (the `utils` module is
not under src/). -/
def LocalInstance_new (supported : Bool) (psLines : List Str) : Option Instance :=
  if supported then localInstanceScan psLines else none

/-! ### Remote instances -/

/-- One element of `networkInterfaces[].accessConfigs`; `natIP` may be
absent (`dict.get` returns `None`). -/
structure AccessConfig where
  natIP : Option Str
deriving DecidableEq

/-- One element of `networkInterfaces`. -/
structure NetworkInterface where
  accessConfigs : List AccessConfig
deriving DecidableEq

/-- One element of `metadata.items`. -/
structure MetadataItem where
  key : Str
  value : Str
deriving DecidableEq

/-- The slice of the gce instance-description dict that
`_ProcessGceInstance` reads. -/
structure GceInstance where
  name : Option Str := none
  creationTimestamp : Option Str := none
  status : Option Str := none
  networkInterfaces : List NetworkInterface := []
  metadata : List MetadataItem := []
deriving DecidableEq

/-- The inner ip loop of `_ProcessGceInstance`:
`for access_config in network_interface.get("accessConfigs"): ip = access_config.get("natIP")`.
The assignment is unconditional — every access config overwrites `ip`, also
when its `natIP` is `None`. -/
def rawNatIpConfigs (ip : Option Str) : List AccessConfig → Option Str
  | [] => ip
  | ac :: rest => rawNatIpConfigs ac.natIP rest

/-- The outer ip loop of `_ProcessGceInstance` over `networkInterfaces`. -/
def rawNatIpInterfaces (ip : Option Str) : List NetworkInterface → Option Str
  | [] => ip
  | ni :: rest => rawNatIpInterfaces (rawNatIpConfigs ip ni.accessConfigs) rest

/-- The value of the local variable `ip` after both loops (`ip = None`
before them). -/
def rawNatIp (g : GceInstance) : Option Str :=
  rawNatIpInterfaces none g.networkInterfaces

/-- The metadata loop of `_ProcessGceInstance`: assign `display`,
`avd_type` or `avd_flavor` for each recognized key, ignore other keys. -/
def applyMetadata (inst : Instance) : List MetadataItem → Instance
  | [] => inst
  | item :: rest =>
    applyMetadata
      (if item.key = INS_KEY_DISPLAY then { inst with display := some item.value }
       else if item.key = INS_KEY_AVD_TYPE then { inst with avd_type := some item.value }
       else if item.key = INS_KEY_AVD_FLAVOR then { inst with avd_flavor := some item.value }
       else inst)
      rest

/-- `RemoteInstance._ProcessGceInstance`, statement by statement. -/
def ProcessGceInstance (g : GceInstance) (psLines : List Str) : Instance :=
  let base : Instance :=
    { name := g.name, createtime := g.creationTimestamp, status := g.status }
  let ip := rawNatIp g
  let withNet :=
    if pyTruthyStrOpt ip then
      let ipv := ip.getD []
      let fp := GetAdbVncPortFromSSHTunnel psLines ipv
      let b := { base with ip := ip, adb_port := fp.adb_port, vnc_port := fp.vnc_port }
      if pyTruthyNatOpt fp.adb_port then
        { b with ssh_tunnel_is_connected := some true,
                 fullname := some (fullNameString
                   (str "127.0.0.1:" ++ numStr (fp.adb_port.getD 0))
                   (pyStrOpt g.name)) }
      else
        { b with ssh_tunnel_is_connected := some false,
                 fullname := some (fullNameString (str "not connected")
                                                  (pyStrOpt g.name)) }
    else base
  applyMetadata withNet g.metadata

/-- `RemoteInstance.__init__`: process the gce dict, then mark non-local. -/
def RemoteInstance (g : GceInstance) (psLines : List Str) : Instance :=
  { ProcessGceInstance g psLines with is_local := some false }

/-! ## `create/local_image_local_instance.py`: the lifecycle controller

The OS-facing collaborators (`utils.IsCommandRunning`,
`utils.GetUserAnswerYes`, `subprocess` calls, `os.path.exists`,
`create_common.VerifyLocalImageArtifactsExist`) become boolean fields of an
environment record, and every externally visible action is logged to an
event trace in execution order. -/

/-- Externally visible actions of `_CreateAVD` in execution order.
`psScanLaunchCvd` is the subprocess behind `utils.IsCommandRunning`,
`runStopCvd` is the `subprocess.check_call` of `stop_cvd` (its output is
sent to `/dev/null`), `runLaunchCvd` is the `subprocess.check_output` of
the launch command. -/
inductive Event
  | disclaimer
  | psScanLaunchCvd
  | promptRelaunch
  | runStopCvd
  | runLaunchCvd
deriving DecidableEq

/-- Is the event the execution of a subprocess? -/
def Event.isSubprocess : Event → Bool
  | .psScanLaunchCvd => true
  | .runStopCvd => true
  | .runLaunchCvd => true
  | .disclaimer => false
  | .promptRelaunch => false

/-- Modelled from the spec: the `acloud.errors` module is not under src/.
§7 names `MissingArtifactsError` for a missing local image or host launch
package; the code raises `errors.GetLocalImageError` (re-raised from
`create_common.VerifyLocalImageArtifactsExist`, also not under src/) and
`errors.GetCvdLocalHostPackageError("No launch_cvd found. Please run
\x22m launch_cvd\x22 first")` for the two cases.  The family is modelled as
one constructor carrying the missing item's name and the message with the
remediation hint.  `launchCVDFail` is `errors.LaunchCVDFail`;
`calledProcessError` is an uncaught `subprocess.CalledProcessError` from
`stop_cvd`. -/
inductive AcloudError
  | missingArtifacts (missingItem : Str) (message : Str)
  | launchCVDFail (message : Str)
  | calledProcessError
deriving DecidableEq

/-- The external outcomes and collaborator answers a creation run depends
on: whether the local image artifacts exist, whether the `launch_cvd`
binary exists in the host package, whether a cuttlefish AVD is already
running (`utils.IsCommandRunning`), the user's answer to the relaunch
prompt (`utils.GetUserAnswerYes`), and the exit status of the `stop_cvd`
and `launch_cvd` subprocesses. -/
structure CreateEnv where
  imageExists : Bool
  hostPkgExists : Bool
  cvdRunning : Bool
  userAnswerYes : Bool
  stopOk : Bool
  launchOk : Bool
deriving DecidableEq

/-- Result of `CheckLaunchCVD`: normal return, the clean `sys.exit()` on a
non-affirmative answer (exit code 0, not an error), an uncaught
`CalledProcessError` from `stop_cvd`, or `errors.LaunchCVDFail` when the
launch command exits non-zero. -/
inductive RunResult
  | normal
  | exitedClean
  | stopFailed
  | launchFailed
deriving DecidableEq

/-- `LocalImageLocalInstance.CheckLaunchCVD`: if an instance is already
running, prompt; on "y" run `stop_cvd` (output suppressed) and fall through
to the launch; on any other answer print and `sys.exit()`.  Then run the
launch command; a non-zero exit becomes `LaunchCVDFail`. -/
def CheckLaunchCVD (env : CreateEnv) : List Event × RunResult :=
  if env.cvdRunning then
    if env.userAnswerYes then
      if env.stopOk then
        ([.psScanLaunchCvd, .promptRelaunch, .runStopCvd, .runLaunchCvd],
         if env.launchOk then .normal else .launchFailed)
      else ([.psScanLaunchCvd, .promptRelaunch, .runStopCvd], .stopFailed)
    else ([.psScanLaunchCvd, .promptRelaunch], .exitedClean)
  else
    ([.psScanLaunchCvd, .runLaunchCvd], if env.launchOk then .normal else .launchFailed)

/-- Modelled from the spec: the `acloud.public.report` module is not under
src/.  §6: a report has a `command` name, a `status` (SUCCESS/FAIL) and a
free-form `data` mapping such as
`{"deleted": [{"type": "instance", "name": ...}]}` or
`{"devices": {"adb_port": ..., "vnc_port": ...}}`. -/
inductive JVal
  | s (v : Str)
  | n (v : Nat)
  | arr (vs : List JVal)
  | obj (fields : List (Str × JVal))

/-- Modelled from the spec (§6): the report record. -/
structure Report where
  command : Str
  status : Str
  data : List (Str × JVal)

/-- Outcome of `_CreateAVD`. -/
inductive CreateOutcome
  | success (r : Report)
  | exitedClean
  | error (e : AcloudError)

/-- `LocalImageLocalInstance._CreateAVD`: print the disclaimer, resolve the
artifacts (`GetImageArtifactsPath`, raising before any subprocess when the
image or the launch package is absent), prepare the command (pure string
building), run `CheckLaunchCVD`, and on success build the SUCCESS report
with the default adb/vnc ports. -/
def CreateAVD (env : CreateEnv) : List Event × CreateOutcome :=
  let ev0 : List Event := [.disclaimer]
  if !env.imageExists then
    (ev0, .error (.missingArtifacts (str "local image")
      (str "No local image artifacts found, please build them first")))
  else if !env.hostPkgExists then
    (ev0, .error (.missingArtifacts (str "launch_cvd")
      (str "No launch_cvd found. Please run \x22m launch_cvd\x22 first")))
  else
    let (ev, res) := CheckLaunchCVD env
    match res with
    | .normal =>
      (ev0 ++ ev, .success
        { command := LOCAL_INS_NAME, status := str "SUCCESS",
          data := [(str "devices",
            JVal.obj [(str "adb_port", .n DEFAULT_ADB_PORT),
                      (str "vnc_port", .n DEFAULT_VNC_PORT)])] })
    | .exitedClean => (ev0 ++ ev, .exitedClean)
    | .stopFailed => (ev0 ++ ev, .error .calledProcessError)
    | .launchFailed => (ev0 ++ ev, .error (.launchCVDFail
        (str "Can't launch cuttlefish AVD. For more detail: ~/cuttlefish_runtime/launcher.log")))

/-! ## `delete`: local-instance deletion

Only `delete/delete_test.py` is under src/; the deletion routine itself is
modelled from the spec. -/

/-- Modelled from the spec: `delete.DeleteLocalInstance` (`delete/delete.py`
is not under src/, only its test is).  §4.4: locate the host package
directory from the running launch process (stop-path resolution may yield
the empty string), build the stop command from that path, execute it, and
report the deletion of exactly one logical item named `"local-instance"` of
type `"instance"`, with command `"delete"` and status SUCCESS.  The first
component is the list of commands executed (the stop command built from the
resolved path). -/
def DeleteLocalInstance (stopPath : Str) : List Str × Report :=
  ([stopPath],
   { command := str "delete", status := str "SUCCESS",
     data := [(str "deleted",
       JVal.arr [JVal.obj [(str "type", .s (str "instance")),
                           (str "name", .s (str "local-instance"))]])] })

/-! ## Auxiliary definitions for the analysis -/

/-- The capture groups a regex assigns on *every* successful match: groups
under `?` or inside `c*` may be skipped, a repeated group `(r)+` runs at
least once. -/
def mustSet : Regex → List Nat
  | .eps => []
  | .cls _ => []
  | .star _ => []
  | .plus _ => []
  | .opt _ => []
  | .seq r₁ r₂ => mustSet r₁ ++ mustSet r₂
  | .capture i r => i :: mustSet r
  | .rep1 r => mustSet r

/-- The seven named groups of `_RE_LAUNCH_CVD`, as read back by
`match.group(...)`. -/
structure LaunchFields where
  date_str : Option Str
  cpu : Option Str
  x_res : Option Str
  y_res : Option Str
  dpi : Option Str
  memory : Option Str
  disk : Option Str
deriving DecidableEq

/-- Match a process line against `_RE_LAUNCH_CVD` and read all named
groups. -/
def launchFields (line : Str) : Option LaunchFields :=
  (matchTop launchRegex line).map (fun caps =>
    { date_str := Caps.get caps DATE_GROUP,
      cpu := Caps.get caps CPU_GROUP,
      x_res := Caps.get caps XRES_GROUP,
      y_res := Caps.get caps YRES_GROUP,
      dpi := Caps.get caps DPI_GROUP,
      memory := Caps.get caps MEM_GROUP,
      disk := Caps.get caps DISK_GROUP })

/-- A launch command line with any chosen subset of the six optional flags
present, in grammar order, between the invocation and the mandatory trailing
arguments (the real launch command always carries
`--system_image_dir`, cf. `_CMD_LAUNCH_CVD_ARGS`). -/
def mkLaunchLine (b₁ b₂ b₃ b₄ b₅ b₆ : Bool) : Str :=
  str "D /b/launch_cvd --daemon" ++
  (if b₁ then str " --cpus 2" else []) ++
  (if b₂ then str " --x_res 7" else []) ++
  (if b₃ then str " --y_res 1" else []) ++
  (if b₄ then str " --dpi 3" else []) ++
  (if b₅ then str " --memory_mb 20" else []) ++
  (if b₆ then str " --blank_data_image_mb 40" else []) ++
  str " --system_image_dir /i"

/-- The fields `mkLaunchLine` is expected to produce: exactly the chosen
flags, each with its value, the others absent. -/
def expectedFields (b₁ b₂ b₃ b₄ b₅ b₆ : Bool) : LaunchFields :=
  { date_str := some (str "D "),
    cpu := if b₁ then some (str "2") else none,
    x_res := if b₂ then some (str "7") else none,
    y_res := if b₃ then some (str "1") else none,
    dpi := if b₄ then some (str "3") else none,
    memory := if b₅ then some (str "20") else none,
    disk := if b₆ then some (str "40") else none }

/-! ### Concrete evidence used by the claims -/

/-- The spec's E2E process line: all six flags with the values of the
scenario, timestamp `"Mon Jan 1 00:00:00 2024"`, and the mandatory trailing
arguments of `_CMD_LAUNCH_CVD_ARGS`. -/
def e2eLine : Str :=
  str "Mon Jan 1 00:00:00 2024 /tmp/bin/launch_cvd --daemon --cpus 2 --x_res 720 --y_res 1280 --dpi 320 --memory_mb 2048 --blank_data_image_mb 4096 --data_policy always_create --system_image_dir /img --vnc_server_port 6444"

/-- The instance the E2E scenario must produce. -/
def e2eExpected : Instance :=
  { name := some LOCAL_INS_NAME,
    fullname := some (fullNameString (str "127.0.0.1:6520") LOCAL_INS_NAME),
    createtime := some (str "Mon Jan 1 00:00:00 2024"),
    avd_type := some TYPE_CF,
    ip := some (str "127.0.0.1"),
    status := some INS_STATUS_RUNNING,
    adb_port := some DEFAULT_ADB_PORT,
    vnc_port := some DEFAULT_VNC_PORT,
    display := some (str "720x1280 (320)"),
    is_local := some true,
    ssh_tunnel_is_connected := some true,
    avd_flavor := none }

/-- A tunnel process line whose forwarding clauses target the default
remote ports and whose remote host is the *different* ip `135.1.2.3`. -/
def tunnelLine135 : Str :=
  str "ssh -L 6444:127.0.0.1:6444 -L 6520:127.0.0.1:6520 root@135.1.2.3"

/-- The canonical tunnel line for ip `35.1.2.3`, VNC clause first. -/
def tunnelLineNormal : Str :=
  str "ssh -L 6444:127.0.0.1:6444 -L 6520:127.0.0.1:6520 root@35.1.2.3"

/-- The canonical tunnel line with the two clauses in the opposite order
(ADB clause first). -/
def tunnelLineSwapped : Str :=
  str "ssh -L 6520:127.0.0.1:6520 -L 6444:127.0.0.1:6444 root@35.1.2.3"

/-- A line that contains the ADB-default clause *before* the VNC-default
clause and still matches: after those two clauses a third forwarding clause
`-L 9:127.0.0.1:65209` supplies the pattern's later ADB-port clause (its
remote port only *extends* the default `6520`). -/
def tunnelLineThreeClauses : Str :=
  str "ssh -L 6520:127.0.0.1:6520 -L 6444:127.0.0.1:6444 -L 9:127.0.0.1:65209 root@35.1.2.3"

/-- A tunnel line for `35.1.2.3` whose forwarded local adb port is `0`. -/
def tunnelLineZeroAdb : Str :=
  str "ssh -L 6444:127.0.0.1:6444 -L 0:127.0.0.1:6520 root@35.1.2.3"

/-- The target ip of the tunnel evidence. -/
def ip35 : Str := str "35.1.2.3"

/-- A gce description with a single interface whose single access config
carries natIP `35.1.2.3`. -/
def gWithIp : GceInstance :=
  { name := some (str "ins-1"),
    creationTimestamp := some (str "2018-10-25T11:36:00.000-07:00"),
    status := some (str "RUNNING"),
    networkInterfaces := [{ accessConfigs := [{ natIP := some ip35 }] }],
    metadata := [] }

/-- A gce description whose only access config has no `natIP`. -/
def gNoIp : GceInstance :=
  { name := some (str "ins-2"),
    creationTimestamp := none,
    status := some (str "RUNNING"),
    networkInterfaces := [{ accessConfigs := [{ natIP := none }] }],
    metadata := [] }

/-- A gce description in which a config with natIP `1.2.3.4` is followed by
a config without natIP. -/
def gLateNone : GceInstance :=
  { name := some (str "ins-3"),
    creationTimestamp := none,
    status := none,
    networkInterfaces :=
      [{ accessConfigs := [{ natIP := some (str "1.2.3.4") }, { natIP := none }] }],
    metadata := [] }

/-- Spec-side description of the ip extraction (for comparison with the
code's loops): the `natIP` of the *last access config iterated*, across all
interfaces in order, whether or not that `natIP` is null. -/
def lastIteratedNatIp (g : GceInstance) : Option Str :=
  match (g.networkInterfaces.map NetworkInterface.accessConfigs).flatten.getLast? with
  | none => none
  | some ac => ac.natIP

/-- A minimal process line matched by the launch grammar (no optional
flags). -/
def witnessLocalLine : Str := str "D /b/launch_cvd --daemon x"

/-- The instance `witnessLocalLine` produces: no resolution flags, so the
display interpolates Python `None` into the format string. -/
def witnessLocalInst : Instance :=
  { name := some LOCAL_INS_NAME,
    fullname := some (fullNameString (str "127.0.0.1:6520") LOCAL_INS_NAME),
    createtime := some (str "D"),
    avd_type := some TYPE_CF,
    ip := some (str "127.0.0.1"),
    status := some INS_STATUS_RUNNING,
    adb_port := some DEFAULT_ADB_PORT,
    vnc_port := some DEFAULT_VNC_PORT,
    display := some (str "NonexNone (None)"),
    is_local := some true,
    ssh_tunnel_is_connected := some true,
    avd_flavor := none }

/-! ## Lemmas about the matcher: groups on the mandatory path are always
assigned on success -/

theorem capsGet_cons_isSome {caps : Caps} {i j : Nat} {v : Str}
    (h : (Caps.get caps i).isSome = true) :
    (Caps.get ((j, v) :: caps) i).isSome = true := by
  simp only [Caps.get]
  split <;> simp [h]

theorem tryEach_some {k : Str → Caps → Option Caps} {caps : Caps}
    {l : List Str} {out : Caps} (h : tryEach k caps l = some out) :
    ∃ s', k s' caps = some out := by
  induction l with
  | nil => simp [tryEach] at h
  | cons s rest ih =>
    simp only [tryEach] at h
    cases hk : k s caps with
    | some o => rw [hk] at h; exact ⟨s, hk.trans h⟩
    | none => rw [hk] at h; exact ih h

/-- On every successful run, the continuation was invoked with captures
containing every group of `mustSet r`, and captures are only ever added. -/
theorem matchR_sets (fuel : Nat) :
    ∀ (r : Regex) (s : Str) (caps : Caps) (k : Str → Caps → Option Caps) (out : Caps),
      matchR fuel r s caps k = some out →
      ∃ s' caps', k s' caps' = some out ∧
        ∀ i, (i ∈ mustSet r ∨ (Caps.get caps i).isSome = true) →
          (Caps.get caps' i).isSome = true := by
  induction fuel with
  | zero => intro r s caps k out h; simp [matchR] at h
  | succ fuel ih =>
    intro r s caps k out h
    cases r with
    | eps =>
      exact ⟨s, caps, by simpa [matchR] using h,
        fun i hi => hi.elim (fun hm => absurd hm (List.not_mem_nil i)) id⟩
    | cls c =>
      simp only [matchR] at h
      split at h
      · exact absurd h (by simp)
      · split at h
        · exact ⟨_, caps, h,
            fun i hi => hi.elim (fun hm => absurd hm (List.not_mem_nil i)) id⟩
        · exact absurd h (by simp)
    | seq r₁ r₂ =>
      simp only [matchR] at h
      obtain ⟨s₁, c₁, hk₁, m₁⟩ := ih r₁ s caps _ out h
      obtain ⟨s₂, c₂, hk₂, m₂⟩ := ih r₂ s₁ c₁ k out hk₁
      refine ⟨s₂, c₂, hk₂, ?_⟩
      intro i hi
      rcases hi with hi | hi
      · rcases List.mem_append.mp hi with hi | hi
        · exact m₂ i (Or.inr (m₁ i (Or.inl hi)))
        · exact m₂ i (Or.inl hi)
      · exact m₂ i (Or.inr (m₁ i (Or.inr hi)))
    | capture idx r₁ =>
      simp only [matchR] at h
      obtain ⟨s₁, c₁, hk₁, m₁⟩ := ih r₁ s caps _ out h
      refine ⟨s₁, (idx, s.take (s.length - s₁.length)) :: c₁, hk₁, ?_⟩
      intro i hi
      rcases hi with hi | hi
      · rcases List.mem_cons.mp hi with hi | hi
        · subst hi; simp [Caps.get]
        · exact capsGet_cons_isSome (m₁ i (Or.inl hi))
      · exact capsGet_cons_isSome (m₁ i (Or.inr hi))
    | star c =>
      simp only [matchR] at h
      obtain ⟨s', hk⟩ := tryEach_some h
      exact ⟨s', caps, hk,
        fun i hi => hi.elim (fun hm => absurd hm (List.not_mem_nil i)) id⟩
    | plus c =>
      simp only [matchR] at h
      split at h
      · exact absurd h (by simp)
      · split at h
        · obtain ⟨s', hk⟩ := tryEach_some h
          exact ⟨s', caps, hk,
            fun i hi => hi.elim (fun hm => absurd hm (List.not_mem_nil i)) id⟩
        · exact absurd h (by simp)
    | opt r₁ =>
      simp only [matchR] at h
      split at h
      next o hm =>
        obtain ⟨s₁, c₁, hk₁, m₁⟩ := ih r₁ s caps k o hm
        exact ⟨s₁, c₁, hk₁.trans h,
          fun i hi => hi.elim (fun hm' => absurd hm' (List.not_mem_nil i))
            (fun hc => m₁ i (Or.inr hc))⟩
      next hm =>
        exact ⟨s, caps, h,
          fun i hi => hi.elim (fun hm' => absurd hm' (List.not_mem_nil i)) id⟩
    | rep1 r₁ =>
      simp only [matchR] at h
      obtain ⟨s₁, c₁, hk₁, m₁⟩ := ih r₁ s caps _ out h
      replace hk₁ :
          (if s₁.length < s.length then
            match matchR fuel (.rep1 r₁) s₁ c₁ k with
            | some out => some out
            | none => k s₁ c₁
          else k s₁ c₁) = some out := hk₁
      split at hk₁
      · split at hk₁
        next o hm =>
          obtain ⟨s₂, c₂, hk₂, m₂⟩ := ih (.rep1 r₁) s₁ c₁ k o hm
          exact ⟨s₂, c₂, hk₂.trans hk₁,
            fun i hi => hi.elim
              (fun hm' => m₂ i (Or.inr (m₁ i (Or.inl hm'))))
              (fun hc => m₂ i (Or.inr (m₁ i (Or.inr hc))))⟩
        next hm =>
          exact ⟨s₁, c₁, hk₁,
            fun i hi => hi.elim (fun hm' => m₁ i (Or.inl hm'))
              (fun hc => m₁ i (Or.inr hc))⟩
      · exact ⟨s₁, c₁, hk₁,
          fun i hi => hi.elim (fun hm' => m₁ i (Or.inl hm'))
            (fun hc => m₁ i (Or.inr hc))⟩

/-- A successful `re.match` assigns every group on the pattern's mandatory
path. -/
theorem matchTop_sets {r : Regex} {s : Str} {caps : Caps}
    (h : matchTop r s = some caps) :
    ∀ i ∈ mustSet r, (Caps.get caps i).isSome = true := by
  intro i hi
  obtain ⟨s', c', hk, m⟩ := matchR_sets _ r s [] _ caps h
  obtain rfl : c' = caps := by simpa using hk
  exact m i (Or.inl hi)

/-- Both named groups sit on the mandatory path of the tunnel pattern. -/
theorem tunnelRegex_mustSet (ip : Str) :
    VNC_GROUP ∈ mustSet (tunnelRegex ip) ∧ ADB_GROUP ∈ mustSet (tunnelRegex ip) := by
  have hv : VNC_GROUP ∈ mustSet tunnelFront := by decide
  have ha : ADB_GROUP ∈ mustSet tunnelFront := by decide
  exact ⟨List.mem_append_left _ hv, List.mem_append_left _ ha⟩

/-- A successful tunnel-line match always yields both ports. -/
theorem tunnelLinePorts_both_some {ip line : Str} {v a : Option Nat}
    (h : tunnelLinePorts ip line = some (v, a)) :
    (∃ n, v = some n) ∧ ∃ n, a = some n := by
  simp only [tunnelLinePorts, Option.map_eq_some'] at h
  obtain ⟨caps, hm, heq⟩ := h
  have hs := matchTop_sets hm
  have hv := hs VNC_GROUP (tunnelRegex_mustSet ip).1
  have ha := hs ADB_GROUP (tunnelRegex_mustSet ip).2
  obtain ⟨sv, hsv⟩ := Option.isSome_iff_exists.mp hv
  obtain ⟨sa, hsa⟩ := Option.isSome_iff_exists.mp ha
  have h1 : v = (Caps.get caps VNC_GROUP).map strToNat := by
    have := congrArg Prod.fst heq; simpa using this.symm
  have h2 : a = (Caps.get caps ADB_GROUP).map strToNat := by
    have := congrArg Prod.snd heq; simpa using this.symm
  exact ⟨⟨strToNat sv, by rw [h1, hsv]; rfl⟩, ⟨strToNat sa, by rw [h2, hsa]; rfl⟩⟩

/-- The tunnel scan either finds no matching line and leaves both ports
`None`, or stops at a matching line and returns both its ports. -/
theorem GetAdbVncPort_cases (psLines : List Str) (ip : Str) :
    (GetAdbVncPortFromSSHTunnel psLines ip = { vnc_port := none, adb_port := none } ∧
      ∀ l ∈ psLines, matchTop (tunnelRegex ip) l = none) ∨
    (∃ v a, GetAdbVncPortFromSSHTunnel psLines ip = { vnc_port := some v, adb_port := some a } ∧
      ∃ l ∈ psLines, matchTop (tunnelRegex ip) l ≠ none) := by
  induction psLines with
  | nil => exact Or.inl ⟨rfl, by simp⟩
  | cons l rest ih =>
    cases hm : tunnelLinePorts ip l with
    | some p =>
      obtain ⟨v, a⟩ := p
      obtain ⟨⟨nv, hnv⟩, ⟨na, hna⟩⟩ := tunnelLinePorts_both_some hm
      subst hnv; subst hna
      refine Or.inr ⟨nv, na, ?_, l, List.mem_cons_self l rest, ?_⟩
      · simp [GetAdbVncPortFromSSHTunnel, hm]
      · intro hnone
        simp [tunnelLinePorts, hnone] at hm
    | none =>
      have hstep : GetAdbVncPortFromSSHTunnel (l :: rest) ip
          = GetAdbVncPortFromSSHTunnel rest ip := by
        simp [GetAdbVncPortFromSSHTunnel, hm]
      have hlnone : matchTop (tunnelRegex ip) l = none := by
        cases hmt : matchTop (tunnelRegex ip) l with
        | none => rfl
        | some caps => simp [tunnelLinePorts, hmt] at hm
      rcases ih with ⟨h1, h2⟩ | ⟨v, a, h1, l', hl', h2⟩
      · exact Or.inl ⟨hstep.trans h1, by
          intro x hx
          rcases List.mem_cons.mp hx with hx | hx
          · subst hx; exact hlnone
          · exact h2 x hx⟩
      · exact Or.inr ⟨v, a, hstep.trans h1, l', List.mem_cons_of_mem l hl', h2⟩

/-- `applyMetadata` only ever touches `display`, `avd_type` and
`avd_flavor`; any observation insensitive to those three fields is
preserved. -/
theorem applyMetadata_pres {α : Type} (f : Instance → α)
    (h₁ : ∀ inst v, f { inst with display := some v } = f inst)
    (h₂ : ∀ inst v, f { inst with avd_type := some v } = f inst)
    (h₃ : ∀ inst v, f { inst with avd_flavor := some v } = f inst) :
    ∀ (items : List MetadataItem) (inst : Instance),
      f (applyMetadata inst items) = f inst := by
  intro items
  induction items with
  | nil => intro inst; rfl
  | cons item rest ih =>
    intro inst
    simp only [applyMetadata]
    rw [ih]
    split
    · exact h₁ inst item.value
    · split
      · exact h₂ inst item.value
      · split
        · exact h₃ inst item.value
        · rfl

theorem applyMetadata_name (items : List MetadataItem) (inst : Instance) :
    (applyMetadata inst items).name = inst.name :=
  applyMetadata_pres Instance.name (fun _ _ => rfl) (fun _ _ => rfl) (fun _ _ => rfl) items inst

theorem applyMetadata_fullname (items : List MetadataItem) (inst : Instance) :
    (applyMetadata inst items).fullname = inst.fullname :=
  applyMetadata_pres Instance.fullname (fun _ _ => rfl) (fun _ _ => rfl) (fun _ _ => rfl) items inst

theorem applyMetadata_ip (items : List MetadataItem) (inst : Instance) :
    (applyMetadata inst items).ip = inst.ip :=
  applyMetadata_pres Instance.ip (fun _ _ => rfl) (fun _ _ => rfl) (fun _ _ => rfl) items inst

theorem applyMetadata_adb_port (items : List MetadataItem) (inst : Instance) :
    (applyMetadata inst items).adb_port = inst.adb_port :=
  applyMetadata_pres Instance.adb_port (fun _ _ => rfl) (fun _ _ => rfl) (fun _ _ => rfl) items inst

theorem applyMetadata_vnc_port (items : List MetadataItem) (inst : Instance) :
    (applyMetadata inst items).vnc_port = inst.vnc_port :=
  applyMetadata_pres Instance.vnc_port (fun _ _ => rfl) (fun _ _ => rfl) (fun _ _ => rfl) items inst

theorem applyMetadata_connected (items : List MetadataItem) (inst : Instance) :
    (applyMetadata inst items).ssh_tunnel_is_connected = inst.ssh_tunnel_is_connected :=
  applyMetadata_pres Instance.ssh_tunnel_is_connected
    (fun _ _ => rfl) (fun _ _ => rfl) (fun _ _ => rfl) items inst

/-! ## Field characterizations of `_ProcessGceInstance` -/

theorem ProcessGce_ip (g : GceInstance) (psLines : List Str) :
    (ProcessGceInstance g psLines).ip =
      if pyTruthyStrOpt (rawNatIp g) then rawNatIp g else none := by
  simp only [ProcessGceInstance, applyMetadata_ip]
  by_cases hip : pyTruthyStrOpt (rawNatIp g)
  · simp only [hip, if_true]
    by_cases hadb :
        pyTruthyNatOpt (GetAdbVncPortFromSSHTunnel psLines ((rawNatIp g).getD [])).adb_port
    · simp [hadb]
    · simp [hadb]
  · simp [hip]

theorem ProcessGce_adb_port (g : GceInstance) (psLines : List Str) :
    (ProcessGceInstance g psLines).adb_port =
      if pyTruthyStrOpt (rawNatIp g) then
        (GetAdbVncPortFromSSHTunnel psLines ((rawNatIp g).getD [])).adb_port
      else none := by
  simp only [ProcessGceInstance, applyMetadata_adb_port]
  by_cases hip : pyTruthyStrOpt (rawNatIp g)
  · simp only [hip, if_true]
    by_cases hadb :
        pyTruthyNatOpt (GetAdbVncPortFromSSHTunnel psLines ((rawNatIp g).getD [])).adb_port
    · simp [hadb]
    · simp [hadb]
  · simp [hip]

theorem ProcessGce_vnc_port (g : GceInstance) (psLines : List Str) :
    (ProcessGceInstance g psLines).vnc_port =
      if pyTruthyStrOpt (rawNatIp g) then
        (GetAdbVncPortFromSSHTunnel psLines ((rawNatIp g).getD [])).vnc_port
      else none := by
  simp only [ProcessGceInstance, applyMetadata_vnc_port]
  by_cases hip : pyTruthyStrOpt (rawNatIp g)
  · simp only [hip, if_true]
    by_cases hadb :
        pyTruthyNatOpt (GetAdbVncPortFromSSHTunnel psLines ((rawNatIp g).getD [])).adb_port
    · simp [hadb]
    · simp [hadb]
  · simp [hip]

theorem ProcessGce_connected (g : GceInstance) (psLines : List Str) :
    (ProcessGceInstance g psLines).ssh_tunnel_is_connected =
      if pyTruthyStrOpt (rawNatIp g) then
        (if pyTruthyNatOpt
            (GetAdbVncPortFromSSHTunnel psLines ((rawNatIp g).getD [])).adb_port
         then some true else some false)
      else none := by
  simp only [ProcessGceInstance, applyMetadata_connected]
  by_cases hip : pyTruthyStrOpt (rawNatIp g)
  · simp only [hip, if_true]
    by_cases hadb :
        pyTruthyNatOpt (GetAdbVncPortFromSSHTunnel psLines ((rawNatIp g).getD [])).adb_port
    · simp [hadb]
    · simp [hadb]
  · simp [hip]

theorem ProcessGce_fullname (g : GceInstance) (psLines : List Str) :
    (ProcessGceInstance g psLines).fullname =
      if pyTruthyStrOpt (rawNatIp g) then
        (if pyTruthyNatOpt
            (GetAdbVncPortFromSSHTunnel psLines ((rawNatIp g).getD [])).adb_port
         then some (fullNameString
            (str "127.0.0.1:"
              ++ numStr ((GetAdbVncPortFromSSHTunnel psLines ((rawNatIp g).getD [])).adb_port.getD 0))
            (pyStrOpt g.name))
         else some (fullNameString (str "not connected") (pyStrOpt g.name)))
      else none := by
  simp only [ProcessGceInstance, applyMetadata_fullname]
  by_cases hip : pyTruthyStrOpt (rawNatIp g)
  · simp only [hip, if_true]
    by_cases hadb :
        pyTruthyNatOpt (GetAdbVncPortFromSSHTunnel psLines ((rawNatIp g).getD [])).adb_port
    · simp [hadb]
    · simp [hadb]
  · simp [hip]

/-! ## The ip loops compute the natIP of the last iterated access config -/

theorem rawNatIpConfigs_eq (cfgs : List AccessConfig) :
    ∀ ip, rawNatIpConfigs ip cfgs =
      match cfgs.getLast? with
      | none => ip
      | some ac => ac.natIP := by
  induction cfgs with
  | nil => intro ip; rfl
  | cons ac rest ih =>
    intro ip
    simp only [rawNatIpConfigs]
    rw [ih ac.natIP]
    cases rest with
    | nil => rfl
    | cons b rest' =>
      rw [List.getLast?_cons_cons]
      cases h : (b :: rest').getLast? with
      | none => exact absurd (List.getLast?_eq_none_iff.mp h) (by simp)
      | some ac' => rfl

theorem rawNatIpInterfaces_eq (ns : List NetworkInterface) :
    ∀ ip, rawNatIpInterfaces ip ns =
      match (ns.map NetworkInterface.accessConfigs).flatten.getLast? with
      | none => ip
      | some ac => ac.natIP := by
  induction ns with
  | nil => intro ip; rfl
  | cons ni rest ih =>
    intro ip
    simp only [rawNatIpInterfaces]
    rw [ih, List.map_cons, List.flatten_cons, List.getLast?_append]
    cases h : (List.map NetworkInterface.accessConfigs rest).flatten.getLast? with
    | some ac => simp [Option.or]
    | none => simp only [Option.or, rawNatIpConfigs_eq]

/-- The local `ip` variable after the nested loops equals the `natIP` of
the last access config iterated (null or not). -/
theorem rawNatIp_eq_last (g : GceInstance) : rawNatIp g = lastIteratedNatIp g := by
  simp only [rawNatIp, lastIteratedNatIp, rawNatIpInterfaces_eq]

/-! ## The local-instance scan -/

theorem localInstanceScan_of_no_match {psLines : List Str}
    (h : ∀ l ∈ psLines, matchTop launchRegex l = none) :
    localInstanceScan psLines = none := by
  induction psLines with
  | nil => rfl
  | cons l rest ih =>
    simp only [localInstanceScan]
    rw [h l (List.mem_cons_self l rest)]
    exact ih (fun x hx => h x (List.mem_cons_of_mem l hx))

theorem localInstanceScan_ports {psLines : List Str} {inst : Instance}
    (h : localInstanceScan psLines = some inst) :
    inst.adb_port = some DEFAULT_ADB_PORT ∧ inst.vnc_port = some DEFAULT_VNC_PORT ∧
      inst.ssh_tunnel_is_connected = some true := by
  induction psLines with
  | nil => simp [localInstanceScan] at h
  | cons l rest ih =>
    simp only [localInstanceScan] at h
    cases hm : matchTop launchRegex l with
    | some caps =>
      rw [hm] at h
      obtain rfl : localInstanceOfCaps caps = inst := by simpa using h
      exact ⟨rfl, rfl, rfl⟩
    | none =>
      rw [hm] at h
      exact ih h

/-! ## The claims -/

set_option maxRecDepth 1000000

/-- C1, counterexample.  The claim says a process line referencing a
*different* IP yields `(null, null)`.  It does not: the interpolated ip is
matched by `(.+ip)` as an unanchored pattern fragment, so the query for
`35.1.2.3` accepts a tunnel line whose remote host is `135.1.2.3` (the
target ip occurs inside the longer address) and returns its forwarded
ports. -/
theorem C1_counterexample :
    GetAdbVncPortFromSSHTunnel [tunnelLine135] ip35
        = { vnc_port := some 6444, adb_port := some 6520 } ∧
      str "root@135.1.2.3" <:+: tunnelLine135 := by
  constructor
  · decide
  · exact ⟨str "ssh -L 6444:127.0.0.1:6444 -L 6520:127.0.0.1:6520 ", [], by rfl⟩

/-- C1, amended.  The tunnel matcher returns `(null, null)` exactly when no
process line matches the instantiated tunnel pattern — never an error —
and any matching line yields both forwarded ports.  (What the pattern
requires of a line is two `-L <port>:127.0.0.1:<remote>` clauses whose
remote ports *begin with* the default VNC and ADB ports in that order,
followed by text containing the ip as a pattern — substring containment,
not an exact-IP reference, per the counterexample.) -/
theorem C1_tunnel_match_characterization (psLines : List Str) (ip : Str) :
    GetAdbVncPortFromSSHTunnel psLines ip
        = { vnc_port := none, adb_port := none } ↔
      ∀ l ∈ psLines, matchTop (tunnelRegex ip) l = none := by
  constructor
  · intro h
    rcases GetAdbVncPort_cases psLines ip with ⟨_, h2⟩ | ⟨v, a, h1, _, _, _⟩
    · exact h2
    · rw [h] at h1
      simp at h1
  · intro h
    rcases GetAdbVncPort_cases psLines ip with ⟨h1, _⟩ | ⟨v, a, _, l, hl, h2⟩
    · exact h1
    · exact absurd (h l hl) h2

/-- C3, counterexample.  The claim says a later access config whose natIP
is null does not erase a previously found non-null address.  It does: the
loop body overwrites `ip` unconditionally, so a trailing config without
`natIP` resets `ip` to null and the constructed instance has no ip at all,
although an earlier config carried `1.2.3.4`. -/
theorem C3_counterexample :
    (gLateNone.networkInterfaces.map NetworkInterface.accessConfigs).flatten
        = [{ natIP := some (str "1.2.3.4") }, { natIP := none }] ∧
      (RemoteInstance gLateNone []).ip = none := by
  constructor
  · rfl
  · decide

/-- C3, amended.  The ip extracted by `_ProcessGceInstance` is the `natIP`
of the *last access config iterated* — null or not — across all interfaces
in order; each config's `natIP` overwrites `ip` unconditionally, so a
trailing null `natIP` erases a previously found address.  The instance
stores that ip only when it is truthy (non-null, non-empty). -/
theorem C3_ip_is_last_iterated (g : GceInstance) (psLines : List Str) :
    (RemoteInstance g psLines).ip =
      if pyTruthyStrOpt (lastIteratedNatIp g) then lastIteratedNatIp g
      else none := by
  have h : (RemoteInstance g psLines).ip = (ProcessGceInstance g psLines).ip := rfl
  rw [h, ProcessGce_ip, rawNatIp_eq_last]

/-- C9: local-instance deletion (modelled from the spec, `delete.py` is not
under src/) reports, for every resolved stop path including the empty one,
command `"delete"`, status `"SUCCESS"` and data
`{"deleted": [{"type": "instance", "name": "local-instance"}]}` — exactly
one logical item, as `delete_test.py` expects. -/
theorem C9_delete_report (stopPath : Str) :
    (DeleteLocalInstance stopPath).2.command = str "delete" ∧
    (DeleteLocalInstance stopPath).2.status = str "SUCCESS" ∧
    (DeleteLocalInstance stopPath).2.data =
      [(str "deleted",
        JVal.arr [JVal.obj [(str "type", JVal.s (str "instance")),
                            (str "name", JVal.s (str "local-instance"))]])] ∧
    (DeleteLocalInstance []).1 = [[]] :=
  ⟨rfl, rfl, rfl, rfl⟩

/-- C10, counterexample.  The claim says *every* line containing both
forwarding clauses in the opposite order (ADB clause first) yields
`(null, null)`.  Not every such line does: this line contains the ADB
clause before the VNC clause, yet a third clause `-L 9:127.0.0.1:65209`
placed after them satisfies the pattern's later ADB-port requirement (its
remote port merely extends `6520`), so the matcher returns
`(6444, 9)`. -/
theorem C10_counterexample :
    GetAdbVncPortFromSSHTunnel [tunnelLineThreeClauses] ip35
      = { vnc_port := some 6444, adb_port := some 9 } := by
  decide

/-- C10, amended.  The tunnel pattern does fix the clause order inside the
region it matches — the VNC-default clause must come before the ADB-default
clause: the canonical two-clause line in ADB-first order yields
`(null, null)` while the same clauses in VNC-first order yield both ports;
but a line with *additional* forwarding text after an ADB-first pair can
still match (see the counterexample), so the order requirement is about the
matched clauses, not a property of every line containing both clauses. -/
theorem C10_clause_order :
    GetAdbVncPortFromSSHTunnel [tunnelLineSwapped] ip35
        = { vnc_port := none, adb_port := none } ∧
      GetAdbVncPortFromSSHTunnel [tunnelLineNormal] ip35
        = { vnc_port := some 6444, adb_port := some 6520 } := by
  constructor
  · decide
  · decide

/-- C2, counterexample.  The claim says `sshTunnelConnected == true` iff
both ports are present and non-null.  The code tests Python *truthiness* of
the adb port, so a tunnel forwarding local adb port `0` produces an
instance with both ports present (`adb_port = 0`, `vnc_port = 6444`) and
`sshTunnelConnected == false`. -/
theorem C2_counterexample :
    (RemoteInstance gWithIp [tunnelLineZeroAdb]).adb_port = some 0 ∧
      (RemoteInstance gWithIp [tunnelLineZeroAdb]).vnc_port = some 6444 ∧
      (RemoteInstance gWithIp [tunnelLineZeroAdb]).ssh_tunnel_is_connected
        = some false := by
  refine ⟨?_, ?_, ?_⟩ <;> decide

/-- C2, amended.  For a `RemoteInstance`, `sshTunnelConnected == true` iff
the adb port is present *and non-zero* (Python truthiness); whenever the
adb port is present at all, the vnc port is present too (the tunnel scan
sets both from the same matching line), so in particular an instance whose
tunnel lookup found no ports never has `sshTunnelConnected == true`.  A
`LocalInstance` always carries both default ports together with
`sshTunnelConnected == true`. -/
theorem C2_connected_iff_truthy_adb :
    (∀ (g : GceInstance) (psLines : List Str),
      ((RemoteInstance g psLines).ssh_tunnel_is_connected = some true ↔
        ∃ p, (RemoteInstance g psLines).adb_port = some p ∧ p ≠ 0) ∧
      ((RemoteInstance g psLines).adb_port ≠ none →
        (RemoteInstance g psLines).vnc_port ≠ none)) ∧
    (∀ (supported : Bool) (psLines : List Str) (inst : Instance),
      LocalInstance_new supported psLines = some inst →
      inst.adb_port = some DEFAULT_ADB_PORT ∧
        inst.vnc_port = some DEFAULT_VNC_PORT ∧
        inst.ssh_tunnel_is_connected = some true) := by
  constructor
  · intro g psLines
    have hc : (RemoteInstance g psLines).ssh_tunnel_is_connected
        = (ProcessGceInstance g psLines).ssh_tunnel_is_connected := rfl
    have ha : (RemoteInstance g psLines).adb_port
        = (ProcessGceInstance g psLines).adb_port := rfl
    have hv : (RemoteInstance g psLines).vnc_port
        = (ProcessGceInstance g psLines).vnc_port := rfl
    rw [hc, ha, hv, ProcessGce_connected, ProcessGce_adb_port, ProcessGce_vnc_port]
    by_cases hip : pyTruthyStrOpt (rawNatIp g)
    · simp only [hip, if_true]
      constructor
      · cases hadb : (GetAdbVncPortFromSSHTunnel psLines ((rawNatIp g).getD [])).adb_port with
        | none => simp [pyTruthyNatOpt, hadb]
        | some p =>
          by_cases hp : p = 0
          · subst hp; simp [pyTruthyNatOpt, hadb]
          · simp [pyTruthyNatOpt, hadb, hp]
      · intro hne
        rcases GetAdbVncPort_cases psLines ((rawNatIp g).getD []) with ⟨h1, _⟩ | ⟨v, a, h1, _⟩
        · rw [h1] at hne; simp at hne
        · rw [h1]; simp
    · simp [hip]
  · intro supported psLines inst h
    cases supported with
    | false => simp [LocalInstance_new] at h
    | true =>
      simp only [LocalInstance_new, if_true] at h
      exact localInstanceScan_ports h

/-- C2, witness: the amended iff and the pairing, applied to the concrete
matching evidence, and the local part applied to a concrete scan. -/
theorem C2_witness :
    ((RemoteInstance gWithIp [tunnelLineNormal]).ssh_tunnel_is_connected = some true ↔
      ∃ p, (RemoteInstance gWithIp [tunnelLineNormal]).adb_port = some p ∧ p ≠ 0) ∧
    (RemoteInstance gWithIp [tunnelLineNormal]).vnc_port ≠ none ∧
    witnessLocalInst.adb_port = some DEFAULT_ADB_PORT :=
  ⟨(C2_connected_iff_truthy_adb.1 gWithIp [tunnelLineNormal]).1,
   (C2_connected_iff_truthy_adb.1 gWithIp [tunnelLineNormal]).2 (by decide),
   (C2_connected_iff_truthy_adb.2 true [witnessLocalLine] witnessLocalInst (by decide)).1⟩

/-- C8, counterexample.  The claim says an absent adb port implies a
fullname containing "not connected".  When the description carries no
usable natIP at all, `_ProcessGceInstance` skips the whole tunnel block:
the adb port is absent and `fullname` is null — it contains nothing. -/
theorem C8_counterexample :
    (RemoteInstance gNoIp []).adb_port = none ∧
      (RemoteInstance gNoIp []).fullname = none := by
  constructor <;> decide

/-- C8, amended.  For a `RemoteInstance`: a present *non-zero* adb port
implies a fullname containing `127.0.0.1:<adbPort>`; when an IP was found
but the adb port is absent *or zero* (Python truthiness), the fullname
contains the literal "not connected"; when no truthy IP was found, the
fullname is null. -/
theorem C8_fullname_states (g : GceInstance) (psLines : List Str) :
    (∀ p : Nat, (RemoteInstance g psLines).adb_port = some p → p ≠ 0 →
      ∃ f, (RemoteInstance g psLines).fullname = some f ∧
        (str "127.0.0.1:" ++ numStr p) <:+: f) ∧
    (pyTruthyStrOpt (rawNatIp g) = true →
      ((RemoteInstance g psLines).adb_port = none ∨
        (RemoteInstance g psLines).adb_port = some 0) →
      ∃ f, (RemoteInstance g psLines).fullname = some f ∧
        str "not connected" <:+: f) ∧
    (pyTruthyStrOpt (rawNatIp g) = false →
      (RemoteInstance g psLines).fullname = none) := by
  have ha : (RemoteInstance g psLines).adb_port
      = (ProcessGceInstance g psLines).adb_port := rfl
  have hf : (RemoteInstance g psLines).fullname
      = (ProcessGceInstance g psLines).fullname := rfl
  refine ⟨?_, ?_, ?_⟩
  · intro p hp hpne
    rw [ha, ProcessGce_adb_port] at hp
    rw [hf, ProcessGce_fullname]
    by_cases hip : pyTruthyStrOpt (rawNatIp g)
    · rw [if_pos hip] at hp
      have htr : pyTruthyNatOpt
          (GetAdbVncPortFromSSHTunnel psLines ((rawNatIp g).getD [])).adb_port = true := by
        rw [hp]; simp [pyTruthyNatOpt, hpne]
      rw [if_pos hip, if_pos htr]
      refine ⟨_, rfl, ?_⟩
      rw [hp]
      exact ⟨str "device serial: ",
        str " (" ++ pyStrOpt g.name ++ str ")",
        by simp [fullNameString, Option.getD]⟩
    · rw [if_neg hip] at hp
      exact absurd hp.symm (by simp)
  · intro hip hadb
    rw [ha, ProcessGce_adb_port, if_pos hip] at hadb
    rw [hf, ProcessGce_fullname, if_pos hip]
    have hfalse : pyTruthyNatOpt
        (GetAdbVncPortFromSSHTunnel psLines ((rawNatIp g).getD [])).adb_port = false := by
      rcases hadb with hadb | hadb <;> rw [hadb] <;> simp [pyTruthyNatOpt]
    rw [if_neg (by simp [hfalse])]
    exact ⟨_, rfl,
      ⟨str "device serial: ", str " (" ++ pyStrOpt g.name ++ str ")",
        by simp [fullNameString]⟩⟩
  · intro hip
    rw [hf, ProcessGce_fullname, if_neg (by simp [hip])]

/-- C8, witness: all three states of the amended claim at concrete
evidence — connected with adb port 6520, disconnected with no tunnel
match, and null fullname with no natIP. -/
theorem C8_witness :
    (∃ f, (RemoteInstance gWithIp [tunnelLineNormal]).fullname = some f ∧
      (str "127.0.0.1:" ++ numStr 6520) <:+: f) ∧
    (∃ f, (RemoteInstance gWithIp []).fullname = some f ∧
      str "not connected" <:+: f) ∧
    (RemoteInstance gNoIp []).fullname = none :=
  ⟨(C8_fullname_states gWithIp [tunnelLineNormal]).1 6520 (by decide) (by decide),
   (C8_fullname_states gWithIp []).2.1 (by decide) (Or.inl (by decide)),
   (C8_fullname_states gNoIp []).2.2 (by decide)⟩

/-- C6: when an instance is already detected running, `CheckLaunchCVD`
takes the conflict path: the user is prompted; on "y" the events are
exactly process-scan, prompt, stop, then launch — the stop command (output
suppressed) runs strictly before the launch command, and if the stop
command fails the launch never runs; on any other answer the run ends in
the clean `sys.exit()` and neither stop nor launch is ever invoked. -/
theorem C6_conflict_path (env : CreateEnv) (h : env.cvdRunning = true) :
    Event.promptRelaunch ∈ (CheckLaunchCVD env).1 ∧
    (env.userAnswerYes = true →
      (CheckLaunchCVD env).1
          = [.psScanLaunchCvd, .promptRelaunch, .runStopCvd, .runLaunchCvd] ∨
      (CheckLaunchCVD env).1 = [.psScanLaunchCvd, .promptRelaunch, .runStopCvd]) ∧
    (env.userAnswerYes = false →
      (CheckLaunchCVD env).2 = RunResult.exitedClean ∧
      Event.runLaunchCvd ∉ (CheckLaunchCVD env).1 ∧
      Event.runStopCvd ∉ (CheckLaunchCVD env).1) := by
  obtain ⟨img, pkg, r, u, st, lo⟩ := env
  cases r with
  | false => simp at h
  | true => cases u <;> cases st <;> cases lo <;> simp [CheckLaunchCVD]

/-- C6, witness: the conflict path at a concrete environment (running
instance, affirmative answer, both subprocesses succeed). -/
theorem C6_witness :
    Event.promptRelaunch
        ∈ (CheckLaunchCVD ⟨true, true, true, true, true, true⟩).1 ∧
    ((true : Bool) = true →
      (CheckLaunchCVD ⟨true, true, true, true, true, true⟩).1
          = [.psScanLaunchCvd, .promptRelaunch, .runStopCvd, .runLaunchCvd] ∨
      (CheckLaunchCVD ⟨true, true, true, true, true, true⟩).1
          = [.psScanLaunchCvd, .promptRelaunch, .runStopCvd]) ∧
    ((true : Bool) = false →
      (CheckLaunchCVD ⟨true, true, true, true, true, true⟩).2 = RunResult.exitedClean ∧
      Event.runLaunchCvd ∉ (CheckLaunchCVD ⟨true, true, true, true, true, true⟩).1 ∧
      Event.runStopCvd ∉ (CheckLaunchCVD ⟨true, true, true, true, true, true⟩).1) :=
  C6_conflict_path ⟨true, true, true, true, true, true⟩ rfl

/-- C7: when the local image or the host launch package is absent,
`_CreateAVD` fails with the missing-artifacts error naming the missing item
(and a remediation message), and its whole event trace contains no
subprocess execution — the failure happens before the conflict-check scan,
the stop command and the launch command. -/
theorem C7_artifact_gating (env : CreateEnv)
    (h : env.imageExists = false ∨ env.hostPkgExists = false) :
    (∃ item msg, (CreateAVD env).2 = .error (.missingArtifacts item msg)) ∧
    ∀ e ∈ (CreateAVD env).1, e.isSubprocess = false := by
  obtain ⟨img, pkg, r, u, st, lo⟩ := env
  cases img with
  | false =>
    refine ⟨⟨str "local image",
      str "No local image artifacts found, please build them first", rfl⟩, ?_⟩
    intro e he
    simp only [CreateAVD, Bool.not_false, if_true] at he
    simp only [List.mem_singleton] at he
    subst he
    rfl
  | true =>
    cases pkg with
    | false =>
      refine ⟨⟨str "launch_cvd",
        str "No launch_cvd found. Please run \x22m launch_cvd\x22 first", rfl⟩, ?_⟩
      intro e he
      simp only [CreateAVD, Bool.not_true, Bool.not_false, if_false, if_true,
        Bool.false_eq_true] at he
      simp only [List.mem_singleton] at he
      subst he
      rfl
    | true => simp at h

/-- C7, witness: the gating at a concrete environment with the image
directory absent. -/
theorem C7_witness :
    (∃ item msg, (CreateAVD ⟨false, true, true, true, true, true⟩).2
        = .error (.missingArtifacts item msg)) ∧
    ∀ e ∈ (CreateAVD ⟨false, true, true, true, true, true⟩).1,
      e.isSubprocess = false :=
  C7_artifact_gating ⟨false, true, true, true, true, true⟩ (Or.inl rfl)

set_option maxHeartbeats 16000000 in
/-- C4: for every subset of the six optional flags, a launch command line
carrying exactly that subset (in grammar order, with the mandatory trailing
arguments) still matches `_RE_LAUNCH_CVD`, and the named groups hold
exactly the present flags' values — each omitted flag's group is absent
without disturbing the capture of the others. -/
theorem C4_launch_flags_partial (b₁ b₂ b₃ b₄ b₅ b₆ : Bool) :
    launchFields (mkLaunchLine b₁ b₂ b₃ b₄ b₅ b₆)
      = some (expectedFields b₁ b₂ b₃ b₄ b₅ b₆) := by
  revert b₁ b₂ b₃ b₄ b₅ b₆
  decide

set_option maxHeartbeats 16000000 in
/-- C5: on the spec's E2E process table the local-instance discovery
returns the instance with display `"720x1280 (320)"`, the stripped
timestamp as creation time, the fixed local name, loopback ip, default
adb/vnc ports, status RUNNING, `isLocal == true` and
`sshTunnelConnected == true`; and whenever no line of the table matches the
launch grammar, discovery returns `None` rather than an error. -/
theorem C5_local_discovery_e2e :
    LocalInstance_new true [e2eLine] = some e2eExpected ∧
    ∀ psLines : List Str, (∀ l ∈ psLines, matchTop launchRegex l = none) →
      LocalInstance_new true psLines = none := by
  constructor
  · decide
  · intro psLines h
    simp only [LocalInstance_new, if_true]
    exact localInstanceScan_of_no_match h

/-- C5, witness: a table whose single line (a ps header) matches nothing
yields an absent result. -/
theorem C5_witness : LocalInstance_new true [str "STARTED CMD"] = none :=
  C5_local_discovery_e2e.2 [str "STARTED CMD"] (by decide)

end Acloud
